import Mathlib

/-!
Shallow embedding of `scripts/update_usage.py`.

The script is modelled as pure functions over explicit inputs:
the process environment is a function `String → Option String`
(os.environ.get), the randomness consumed by the stubbed usage fetch is a
per-provider seed `String → Nat`, the clock output
`datetime.datetime.now().isoformat()` is a string parameter `now`, the
directory of the script file (`os.path.dirname(__file__)`) is a string
parameter `scriptDir`, and the SMTP relay's behaviour for a session is an
oracle `SmtpBehavior` whose three steps (connect over SSL, login, sendmail)
each either succeed or raise. Effects of a run — the assembled dict, the
file write, and the calls to `send_email_notification` — are collected in a
`RunResult` record.
-/

set_option autoImplicit false
set_option linter.unusedVariables false

namespace UpdateUsage

/-- Values stored in the usage dict: Python ints and strings. -/
inductive JsonVal where
  | int (n : Nat)
  | str (s : String)
deriving DecidableEq

/-- Python truthiness of the result of `os.environ.get`: `None` and the
empty string are falsy, any other string is truthy. -/
def pyTruthy : Option String → Bool
  | none => false
  | some s => !s.isEmpty

/-- Model of `random.randint lo hi`: an integer in `[lo, hi]` inclusive,
determined here by an explicit seed. -/
def randint (lo hi seed : Nat) : Nat :=
  lo + seed % (hi - lo + 1)

/-- Model of `fetch_usage(provider, api_key)`: the stub ignores its
arguments and returns `random.randint(0, 1000)`; the randomness is the
`seed` argument. It never raises. -/
def fetch_usage (provider api_key : String) (seed : Nat) : Nat :=
  randint 0 1000 seed

/-- Model of Python `str.upper()`: uppercase every character (the provider
names are plain ASCII, where `Char.toUpper` agrees with Python). -/
def pyUpper (s : String) : String :=
  ⟨s.data.map Char.toUpper⟩

/-- Outcome of one call to `send_email_notification`. -/
inductive EmailResult where
  | skipped
  | sent
  | failed (e : String)
deriving DecidableEq

/-- One call to `send_email_notification`: the message it was asked to
send, what happened, and how many connections to the mail relay the call
opened. -/
structure EmailCall where
  subject : String
  body : String
  result : EmailResult
  connAttempts : Nat
deriving DecidableEq

/-- Behaviour of the SMTP relay for one session: the `SMTP_SSL`
constructor, `login`, and `sendmail` each either return or raise. -/
structure SmtpBehavior where
  connect : Except String Unit
  login : Except String Unit
  send : Except String Unit

/-- The body of the try-block of `send_email_notification`: open the SSL
connection, log in, send the message; the first step that raises aborts
the session with that error. -/
def smtpSession (b : SmtpBehavior) : Except String Unit := do
  b.connect
  b.login
  b.send

/-- Model of `send_email_notification(subject, body)`. If any of
EMAIL_SENDER, EMAIL_PASSWORD, EMAIL_RECEIVER is falsy (absent or empty) it
logs and returns without touching the relay. Otherwise it runs the SMTP
session inside a try/except that catches every exception, so the call
always returns normally. -/
def send_email_notification (subject body : String)
    (env : String → Option String) (b : SmtpBehavior) : EmailCall :=
  let sender_email := env "EMAIL_SENDER"
  let sender_password := env "EMAIL_PASSWORD"
  let receiver_email := env "EMAIL_RECEIVER"
  if !(pyTruthy sender_email && pyTruthy sender_password
      && pyTruthy receiver_email) then
    ⟨subject, body, EmailResult.skipped, 0⟩
  else
    match smtpSession b with
    | Except.ok _ => ⟨subject, body, EmailResult.sent, 1⟩
    | Except.error e => ⟨subject, body, EmailResult.failed e, 1⟩

/-- Python dict assignment `d[k] = v` on an insertion-ordered dict
represented as an association list: replace in place if the key is
present, else append. -/
def dictInsert (d : List (String × JsonVal)) (k : String) (v : JsonVal) :
    List (String × JsonVal) :=
  if d.any (fun kv => kv.1 == k) then
    d.map (fun kv => if kv.1 == k then (k, v) else kv)
  else
    d ++ [(k, v)]

/-- The fixed provider list of `main`. -/
def providers : List String :=
  ["openai", "anthropic", "perplexity", "gemini", "huggingface"]

/-- One iteration of the provider loop of `main`: look up
`<PROVIDER>_API_KEY` in the environment; if it is truthy call
`fetch_usage`, otherwise record 0. -/
def providerUsage (env : String → Option String) (fetchSeed : String → Nat)
    (provider : String) : JsonVal :=
  match env (pyUpper provider ++ "_API_KEY") with
  | some api_key =>
      if api_key.isEmpty then JsonVal.int 0
      else JsonVal.int (fetch_usage provider api_key (fetchSeed provider))
  | none => JsonVal.int 0

/-- The provider loop of `main`: build the dict entry by entry. -/
def buildUsage (env : String → Option String) (fetchSeed : String → Nat) :
    List (String × JsonVal) :=
  providers.foldl
    (fun d provider => dictInsert d provider (providerUsage env fetchSeed provider))
    []

/-- The threshold loop of `main` over `usage_data.items()`: an entry whose
value is an int strictly above 800 triggers one call to
`send_email_notification`; any other entry (including one whose value is a
string, rejected by the `isinstance(usage, int)` guard) triggers none. -/
def checkThresholds (usage_data : List (String × JsonVal))
    (env : String → Option String) (b : SmtpBehavior) : List EmailCall :=
  usage_data.filterMap (fun kv =>
    match kv.2 with
    | JsonVal.int usage =>
        if usage > 800 then
          some (send_email_notification
            ("High API Usage Alert: " ++ kv.1)
            ("Your usage for " ++ kv.1 ++ " has reached "
              ++ toString usage ++ ".")
            env b)
        else none
    | JsonVal.str _ => none)

/-- Mode of the file write: `open(path, 'w')` truncates and overwrites. -/
inductive FileMode where
  | overwrite
  | append
deriving DecidableEq

/-- Model of `os.path.dirname`: everything before the final path
separator (empty when there is none). -/
def dirname (s : String) : String :=
  let parts := s.splitOn "/"
  if parts.length ≤ 1 then "" else String.intercalate "/" parts.dropLast

/-- The file write performed by `main`: `os.makedirs(dirname(path),
exist_ok=True)` followed by `json.dump(usage_data, f, indent=2)` on a file
opened with mode 'w'. -/
structure FileWrite where
  path : String
  mode : FileMode
  mkdirPath : String
  mkdirExistOk : Bool
  indent : Nat
  content : List (String × JsonVal)
deriving DecidableEq

/-- Everything a run of `main` produces: the assembled dict, the file
write, and the sequence of calls to `send_email_notification`. -/
structure RunResult where
  usage_data : List (String × JsonVal)
  fileWrite : FileWrite
  emailCalls : List EmailCall

/-- Model of `main()`: build the usage dict over the fixed provider list,
add `last_updated`, write the dict as JSON to
`scriptDir/../public/usage.json`, then run the threshold loop. -/
def main (env : String → Option String) (fetchSeed : String → Nat)
    (now : String) (scriptDir : String) (b : SmtpBehavior) : RunResult :=
  let afterProviders := buildUsage env fetchSeed
  let usage_data := dictInsert afterProviders "last_updated" (JsonVal.str now)
  let output_path := scriptDir ++ "/../public/usage.json"
  ⟨usage_data,
   ⟨output_path, FileMode.overwrite, dirname output_path, true, 2, usage_data⟩,
   checkThresholds usage_data env b⟩

/-- Concrete inputs used by witnesses: an environment with no variable
set. -/
def envNone : String → Option String := fun _ => none

/-- Concrete inputs used by witnesses: a zero seed for every provider. -/
def seedZero : String → Nat := fun _ => 0

/-- Concrete inputs used by witnesses: a relay on which every step
succeeds. -/
def smtpOk : SmtpBehavior :=
  ⟨Except.ok (), Except.ok (), Except.ok ()⟩

/-- Concrete inputs used by witnesses: a relay whose connection step
raises. -/
def smtpFail : SmtpBehavior :=
  ⟨Except.error "boom", Except.ok (), Except.ok ()⟩

/-- Whether the dict stores an int under the given key. -/
def isIntEntry (d : List (String × JsonVal)) (p : String) : Bool :=
  match List.lookup p d with
  | some (JsonVal.int _) => true
  | _ => false

/-- Environment of the worked example: only openai has an API key, and no
email variable is set. -/
def envExample : String → Option String :=
  fun k => if k == "OPENAI_API_KEY" then some "sk-demo" else none

/-- Seeds of the worked example: the stubbed fetch returns 900 for
openai. -/
def seedExample : String → Nat :=
  fun p => if p == "openai" then 900 else 0

/-- Environment with EMAIL_SENDER set to the empty string. -/
def envEmptyMail : String → Option String :=
  fun k => if k == "EMAIL_SENDER" then some "" else none

/-- The usage dict of a run, written out: the five provider entries in
list order followed by the timestamp entry. -/
theorem main_usage_data (env : String → Option String)
    (fetchSeed : String → Nat) (now scriptDir : String) (b : SmtpBehavior) :
    (main env fetchSeed now scriptDir b).usage_data =
      [("openai", providerUsage env fetchSeed "openai"),
       ("anthropic", providerUsage env fetchSeed "anthropic"),
       ("perplexity", providerUsage env fetchSeed "perplexity"),
       ("gemini", providerUsage env fetchSeed "gemini"),
       ("huggingface", providerUsage env fetchSeed "huggingface"),
       ("last_updated", JsonVal.str now)] := rfl

/-- The subject field of a notification call is the subject it was asked
to send, whatever the environment and relay do. -/
theorem send_email_subject (subject body : String)
    (env : String → Option String) (b : SmtpBehavior) :
    (send_email_notification subject body env b).subject = subject := by
  unfold send_email_notification
  cases hs : smtpSession b <;>
    by_cases h : (!(pyTruthy (env "EMAIL_SENDER")
        && pyTruthy (env "EMAIL_PASSWORD")
        && pyTruthy (env "EMAIL_RECEIVER"))) = true <;>
    simp [hs, h]

/-- Every provider entry built by the provider loop holds an int. -/
theorem providerUsage_int (env : String → Option String)
    (fetchSeed : String → Nat) (provider : String) :
    ∃ n, providerUsage env fetchSeed provider = JsonVal.int n := by
  unfold providerUsage
  cases env (pyUpper provider ++ "_API_KEY") with
  | none => exact ⟨0, rfl⟩
  | some k =>
      cases h : k.isEmpty with
      | true => exact ⟨0, by simp [h]⟩
      | false =>
          exact ⟨fetch_usage provider k (fetchSeed provider), by simp [h]⟩

/-- Unfolding one step of the threshold loop. -/
theorem checkThresholds_cons (kv : String × JsonVal)
    (t : List (String × JsonVal)) (env : String → Option String)
    (b : SmtpBehavior) :
    checkThresholds (kv :: t) env b =
      (match kv.2 with
       | JsonVal.int usage =>
           if usage > 800 then
             [send_email_notification ("High API Usage Alert: " ++ kv.1)
               ("Your usage for " ++ kv.1 ++ " has reached "
                 ++ toString usage ++ ".")
               env b]
           else []
       | JsonVal.str _ => []) ++ checkThresholds t env b := by
  rcases kv with ⟨k, v⟩
  cases v with
  | int n => by_cases h : n > 800 <;> simp [checkThresholds, h]
  | str s => simp [checkThresholds]

/-- Counting the notification calls of the threshold loop whose subject is
a given string counts the dict entries that produce that subject and hold
an int above 800. -/
theorem checkThresholds_countP (usage_data : List (String × JsonVal))
    (env : String → Option String) (b : SmtpBehavior) (S : String) :
    (checkThresholds usage_data env b).countP (fun c => c.subject == S) =
      usage_data.countP (fun kv =>
        (("High API Usage Alert: " ++ kv.1) == S) &&
          (match kv.2 with
           | JsonVal.int n => decide (n > 800)
           | JsonVal.str _ => false)) := by
  induction usage_data with
  | nil => rfl
  | cons kv t ih =>
      rw [checkThresholds_cons, List.countP_append, List.countP_cons, ih]
      rcases kv with ⟨k, v⟩
      cases v with
      | int n =>
          by_cases h : n > 800 <;>
            simp [h, List.countP_cons, send_email_subject, Nat.add_comm]
      | str s => simp

/-- Appending on the left is cancellative for strings. -/
theorem string_append_left_cancel (pre a b : String)
    (h : pre ++ a = pre ++ b) : a = b := by
  have hd : (pre ++ a).data = (pre ++ b).data := by rw [h]
  simp [String.data_append] at hd
  exact String.ext hd

/-- Comparing two strings built by appending to the same left part
compares the right parts. -/
theorem string_append_beq (pre a b : String) :
    ((pre ++ a) == (pre ++ b)) = (a == b) := by
  by_cases h : a = b
  · subst h; simp
  · have h2 : pre ++ a ≠ pre ++ b :=
      fun hc => h (string_append_left_cancel pre a b hc)
    simp [h, h2]

/-- Every notification call of the threshold loop comes from a dict entry
holding an int above 800, and its subject names that entry's key. -/
theorem checkThresholds_subject_mem (d : List (String × JsonVal))
    (env : String → Option String) (b : SmtpBehavior) (c : EmailCall)
    (hc : c ∈ checkThresholds d env b) :
    ∃ kv ∈ d, (∃ n, kv.2 = JsonVal.int n ∧ 800 < n) ∧
      c.subject = "High API Usage Alert: " ++ kv.1 := by
  induction d with
  | nil => simp [checkThresholds] at hc
  | cons kv t ih =>
      rw [checkThresholds_cons] at hc
      rcases List.mem_append.mp hc with h | h
      · rcases kv with ⟨k, v⟩
        cases v with
        | int n =>
            by_cases hn : n > 800
            · simp only [hn, if_true, List.mem_singleton] at h
              refine ⟨(k, JsonVal.int n), List.mem_cons_self _ _,
                ⟨n, rfl, hn⟩, ?_⟩
              rw [h]
              exact send_email_subject _ _ env b
            · simp [hn] at h
        | str s => simp at h
      · obtain ⟨kv', hkv', hint, hsub⟩ := ih h
        exact ⟨kv', List.mem_cons_of_mem _ hkv', hint, hsub⟩

/-- C1: for every provider entry of the assembled usage mapping whose
value is an integer strictly greater than 800, the run performs exactly
one notification attempt (one call to `send_email_notification` whose
subject names that provider); for an entry whose value is at most 800 it
performs none. -/
theorem C1_threshold_count (env : String → Option String)
    (fetchSeed : String → Nat) (now scriptDir : String) (b : SmtpBehavior)
    (p : String) (n : Nat) (hp : p ∈ providers)
    (hl : List.lookup p (main env fetchSeed now scriptDir b).usage_data
        = some (JsonVal.int n)) :
    (main env fetchSeed now scriptDir b).emailCalls.countP
        (fun c => c.subject == "High API Usage Alert: " ++ p)
      = if 800 < n then 1 else 0 := by
  have hcalls : (main env fetchSeed now scriptDir b).emailCalls
      = checkThresholds (main env fetchSeed now scriptDir b).usage_data env b :=
    rfl
  rw [hcalls, checkThresholds_countP, main_usage_data]
  rw [main_usage_data] at hl
  obtain ⟨n1, h1⟩ := providerUsage_int env fetchSeed "openai"
  obtain ⟨n2, h2⟩ := providerUsage_int env fetchSeed "anthropic"
  obtain ⟨n3, h3⟩ := providerUsage_int env fetchSeed "perplexity"
  obtain ⟨n4, h4⟩ := providerUsage_int env fetchSeed "gemini"
  obtain ⟨n5, h5⟩ := providerUsage_int env fetchSeed "huggingface"
  rw [h1, h2, h3, h4, h5] at hl ⊢
  simp only [providers, List.mem_cons, List.not_mem_nil, or_false] at hp
  rcases hp with rfl | rfl | rfl | rfl | rfl <;>
    simp [List.lookup, List.countP_cons, string_append_beq] at hl ⊢ <;>
    simp [hl]

/-- C1 witness: with no environment variable set, openai's usage is 0 and
the run attempts no notification for it. -/
theorem C1_threshold_count_wit :
    "openai" ∈ providers ∧
    List.lookup "openai"
        (main envNone seedZero "2024-01-01T00:00:00" "scripts" smtpOk).usage_data
      = some (JsonVal.int 0) ∧
    (main envNone seedZero "2024-01-01T00:00:00" "scripts" smtpOk).emailCalls.countP
        (fun c => c.subject == "High API Usage Alert: " ++ "openai")
      = if 800 < 0 then 1 else 0 :=
  ⟨by decide, by decide,
   C1_threshold_count envNone seedZero "2024-01-01T00:00:00" "scripts" smtpOk
     "openai" 0 (by decide) (by decide)⟩

/-- C2: after every run the serialized output holds exactly one entry per
provider of the fixed list, each an int, plus exactly the key
`last_updated` holding the timestamp string the clock produced, and
nothing else. -/
theorem C2_output_shape (env : String → Option String)
    (fetchSeed : String → Nat) (now scriptDir : String) (b : SmtpBehavior) :
    (main env fetchSeed now scriptDir b).fileWrite.content
        = (main env fetchSeed now scriptDir b).usage_data ∧
    (main env fetchSeed now scriptDir b).usage_data.map Prod.fst
        = providers ++ ["last_updated"] ∧
    providers.all (isIntEntry (main env fetchSeed now scriptDir b).usage_data)
        = true ∧
    List.lookup "last_updated" (main env fetchSeed now scriptDir b).usage_data
        = some (JsonVal.str now) := by
  refine ⟨rfl, by rw [main_usage_data]; rfl, ?_, ?_⟩
  · obtain ⟨n1, h1⟩ := providerUsage_int env fetchSeed "openai"
    obtain ⟨n2, h2⟩ := providerUsage_int env fetchSeed "anthropic"
    obtain ⟨n3, h3⟩ := providerUsage_int env fetchSeed "perplexity"
    obtain ⟨n4, h4⟩ := providerUsage_int env fetchSeed "gemini"
    obtain ⟨n5, h5⟩ := providerUsage_int env fetchSeed "huggingface"
    rw [main_usage_data, h1, h2, h3, h4, h5]
    simp [providers, isIntEntry, List.lookup]
  · rw [main_usage_data]
    simp [List.lookup]

/-- C3: a provider whose `<PROVIDER>_API_KEY` environment variable is
absent gets usage exactly 0, and the run still produces every provider
entry plus the timestamp. -/
theorem C3_missing_key_zero (env : String → Option String)
    (fetchSeed : String → Nat) (now scriptDir : String) (b : SmtpBehavior)
    (p : String) (hp : p ∈ providers)
    (hk : env (pyUpper p ++ "_API_KEY") = none) :
    List.lookup p (main env fetchSeed now scriptDir b).usage_data
        = some (JsonVal.int 0) ∧
    (main env fetchSeed now scriptDir b).usage_data.map Prod.fst
        = providers ++ ["last_updated"] := by
  constructor
  · rw [main_usage_data]
    simp only [providers, List.mem_cons, List.not_mem_nil, or_false] at hp
    rcases hp with rfl | rfl | rfl | rfl | rfl <;>
      simp [List.lookup, providerUsage, hk]
  · rw [main_usage_data]; rfl

/-- C3 witness: in the empty environment, openai's key is absent and its
usage is 0. -/
theorem C3_missing_key_zero_wit :
    ("openai" ∈ providers ∧ envNone (pyUpper "openai" ++ "_API_KEY") = none) ∧
    (List.lookup "openai"
        (main envNone seedZero "2024-01-01T00:00:00" "scripts" smtpOk).usage_data
      = some (JsonVal.int 0) ∧
    (main envNone seedZero "2024-01-01T00:00:00" "scripts" smtpOk).usage_data.map
        Prod.fst = providers ++ ["last_updated"]) :=
  ⟨⟨by decide, rfl⟩,
   C3_missing_key_zero envNone seedZero "2024-01-01T00:00:00" "scripts" smtpOk
     "openai" (by decide) rfl⟩

/-- C4: if any of EMAIL_SENDER, EMAIL_PASSWORD, EMAIL_RECEIVER is absent,
`send_email_notification` returns after the skip without opening a
connection to the mail relay. -/
theorem C4_missing_email_env_skips (subject body : String)
    (env : String → Option String) (b : SmtpBehavior)
    (h : env "EMAIL_SENDER" = none ∨ env "EMAIL_PASSWORD" = none
        ∨ env "EMAIL_RECEIVER" = none) :
    (send_email_notification subject body env b).result = EmailResult.skipped ∧
    (send_email_notification subject body env b).connAttempts = 0 := by
  rcases h with h | h | h <;>
    simp [send_email_notification, h, pyTruthy]

/-- C4 witness: with no environment variable set, the notification is
skipped and no connection is opened. -/
theorem C4_missing_email_env_skips_wit :
    (envNone "EMAIL_SENDER" = none ∨ envNone "EMAIL_PASSWORD" = none
        ∨ envNone "EMAIL_RECEIVER" = none) ∧
    ((send_email_notification "s" "b" envNone smtpOk).result
        = EmailResult.skipped ∧
     (send_email_notification "s" "b" envNone smtpOk).connAttempts = 0) :=
  ⟨Or.inl rfl,
   C4_missing_email_env_skips "s" "b" envNone smtpOk (Or.inl rfl)⟩

/-- C5: a failure raised anywhere in the mail-send session is caught
inside `send_email_notification` (the call returns the caught error, or
was skipped), and the usage mapping and file write of the run do not
depend on the relay's behaviour at all. -/
theorem C5_send_failure_caught (env : String → Option String)
    (fetchSeed : String → Nat) (now scriptDir : String)
    (b b' : SmtpBehavior) (subject body e : String)
    (hb : smtpSession b = Except.error e) :
    (main env fetchSeed now scriptDir b).usage_data
        = (main env fetchSeed now scriptDir b').usage_data ∧
    (main env fetchSeed now scriptDir b).fileWrite
        = (main env fetchSeed now scriptDir b').fileWrite ∧
    ((send_email_notification subject body env b).result = EmailResult.skipped ∨
     (send_email_notification subject body env b).result
        = EmailResult.failed e) := by
  refine ⟨rfl, rfl, ?_⟩
  by_cases h : (!(pyTruthy (env "EMAIL_SENDER")
      && pyTruthy (env "EMAIL_PASSWORD")
      && pyTruthy (env "EMAIL_RECEIVER"))) = true
  · left; simp [send_email_notification, h]
  · right; simp [send_email_notification, h, hb]

/-- C5 witness: a relay whose connection step raises changes nothing about
the dict or the file write, and the erroring send is caught. -/
theorem C5_send_failure_caught_wit :
    smtpSession smtpFail = Except.error "boom" ∧
    ((main envNone seedZero "2024-01-01T00:00:00" "scripts" smtpFail).usage_data
        = (main envNone seedZero "2024-01-01T00:00:00" "scripts" smtpOk).usage_data ∧
     (main envNone seedZero "2024-01-01T00:00:00" "scripts" smtpFail).fileWrite
        = (main envNone seedZero "2024-01-01T00:00:00" "scripts" smtpOk).fileWrite ∧
     ((send_email_notification "s" "b" envNone smtpFail).result
          = EmailResult.skipped ∨
      (send_email_notification "s" "b" envNone smtpFail).result
          = EmailResult.failed "boom")) :=
  ⟨rfl,
   C5_send_failure_caught envNone seedZero "2024-01-01T00:00:00" "scripts"
     smtpFail smtpOk "s" "b" "boom" rfl⟩

/-- C6: the run writes the output file in overwrite mode with the whole
dict as content, at the fixed relative path under the script directory,
and creates the missing parent directory of that path first. -/
theorem C6_overwrite_and_mkdir (env : String → Option String)
    (fetchSeed : String → Nat) (now scriptDir : String) (b : SmtpBehavior) :
    (main env fetchSeed now scriptDir b).fileWrite.mode = FileMode.overwrite ∧
    (main env fetchSeed now scriptDir b).fileWrite.content
        = (main env fetchSeed now scriptDir b).usage_data ∧
    (main env fetchSeed now scriptDir b).fileWrite.path
        = scriptDir ++ "/../public/usage.json" ∧
    (main env fetchSeed now scriptDir b).fileWrite.mkdirPath
        = dirname ((main env fetchSeed now scriptDir b).fileWrite.path) ∧
    (main env fetchSeed now scriptDir b).fileWrite.mkdirExistOk = true :=
  ⟨rfl, rfl, rfl, rfl, rfl⟩

/-- C7: the stubbed fetch always succeeds and returns an integer between
0 and 1000 inclusive, whatever the provider, key and randomness. -/
theorem C7_fetch_usage_bounds (provider api_key : String) (seed : Nat) :
    0 ≤ fetch_usage provider api_key seed ∧
    fetch_usage provider api_key seed ≤ 1000 := by
  unfold fetch_usage randint
  omega

/-- C8: on the worked example (openai fetches 900, anthropic has no key so
records 0), the output file holds openai 900, anthropic 0 and the
timestamp, and exactly one email is attempted, whose subject contains
"openai". -/
theorem C8_example_run :
    List.lookup "openai"
        (main envExample seedExample "2024-05-01T12:00:00" "scripts" smtpOk).fileWrite.content
      = some (JsonVal.int 900) ∧
    List.lookup "anthropic"
        (main envExample seedExample "2024-05-01T12:00:00" "scripts" smtpOk).fileWrite.content
      = some (JsonVal.int 0) ∧
    List.lookup "last_updated"
        (main envExample seedExample "2024-05-01T12:00:00" "scripts" smtpOk).fileWrite.content
      = some (JsonVal.str "2024-05-01T12:00:00") ∧
    (main envExample seedExample "2024-05-01T12:00:00" "scripts" smtpOk).emailCalls.length
      = 1 ∧
    (main envExample seedExample "2024-05-01T12:00:00" "scripts" smtpOk).emailCalls.all
        (fun c => c.subject == "High API Usage Alert: openai") = true ∧
    List.IsInfix "openai".data "High API Usage Alert: openai".data := by
  refine ⟨by decide, by decide, by decide, by decide, by decide, by decide⟩

/-- C9: the threshold loop also visits the `last_updated` entry, but that
entry holds a string and the `isinstance(usage, int)` guard rejects it:
every notification attempt of a run is for one of the five providers, and
none is for `last_updated`. -/
theorem C9_type_guard (env : String → Option String)
    (fetchSeed : String → Nat) (now scriptDir : String) (b : SmtpBehavior) :
    List.lookup "last_updated" (main env fetchSeed now scriptDir b).usage_data
        = some (JsonVal.str now) ∧
    ((main env fetchSeed now scriptDir b).emailCalls.all fun c =>
        providers.any fun p => c.subject == "High API Usage Alert: " ++ p)
      = true ∧
    ((main env fetchSeed now scriptDir b).emailCalls.all fun c =>
        !(c.subject == "High API Usage Alert: last_updated")) = true := by
  have hcalls : (main env fetchSeed now scriptDir b).emailCalls
      = checkThresholds (main env fetchSeed now scriptDir b).usage_data env b :=
    rfl
  refine ⟨by rw [main_usage_data]; simp [List.lookup], ?_, ?_⟩ <;>
  · rw [List.all_eq_true]
    intro c hc
    rw [hcalls, main_usage_data] at hc
    obtain ⟨kv, hkv, ⟨n, hn, _⟩, hsub⟩ :=
      checkThresholds_subject_mem _ env b c hc
    simp only [List.mem_cons, List.not_mem_nil, or_false] at hkv
    rcases hkv with rfl | rfl | rfl | rfl | rfl | rfl <;>
      first
        | (simp only [hsub]; decide)
        | simp at hn

/-- C10: an email environment variable set to the empty string is treated
exactly like an absent one: the notification is skipped and no connection
to the relay is opened. -/
theorem C10_empty_email_env (subject body : String)
    (env : String → Option String) (b : SmtpBehavior)
    (h : env "EMAIL_SENDER" = some "" ∨ env "EMAIL_PASSWORD" = some ""
        ∨ env "EMAIL_RECEIVER" = some "") :
    (send_email_notification subject body env b).result = EmailResult.skipped ∧
    (send_email_notification subject body env b).connAttempts = 0 := by
  have he : "".isEmpty = true := rfl
  rcases h with h | h | h <;>
    simp [send_email_notification, h, pyTruthy, he]

/-- C10 witness: EMAIL_SENDER set to the empty string skips the
notification without opening a connection. -/
theorem C10_empty_email_env_wit :
    (envEmptyMail "EMAIL_SENDER" = some ""
        ∨ envEmptyMail "EMAIL_PASSWORD" = some ""
        ∨ envEmptyMail "EMAIL_RECEIVER" = some "") ∧
    ((send_email_notification "s" "b" envEmptyMail smtpOk).result
        = EmailResult.skipped ∧
     (send_email_notification "s" "b" envEmptyMail smtpOk).connAttempts = 0) :=
  ⟨Or.inl rfl,
   C10_empty_email_env "s" "b" envEmptyMail smtpOk (Or.inl rfl)⟩

end UpdateUsage
